import Mathlib

/-!
Verification of the club_app data model (src/club_app/models.py) of the
djk-sample repository: entity structures, the display-mapping methods
(`get_str_fields`), the canonical references (`get_absolute_url`), the
custom `Club.save` stamping logic, and a small relational model of the
persistence layer carrying the declared uniqueness and cascade-delete
constraints.
-/

namespace ClubApp

/-- Dates and datetimes are modelled as abstract instants (`Nat`). -/
abbrev Date := Nat

/-- Modelled from the spec: the locale-aware date formatter
(`format_local_date` of the external template library, not under src/).
Every claim treats the rendered date as an uninterpreted definite string,
so a canonical injective rendering is used. -/
def format_local_date (d : Date) : String := "d" ++ toString d

/-- Modelled from the spec: formatting of a possibly-unset date field;
persisted entities always carry both timestamps set. -/
def format_local_date_o : Option Date → String
  | some d => format_local_date d
  | none => "None"

/-- A value of a display mapping: either a formatted string, or the nested
display mapping of a related entity (nested mappings of this application are
flat field-to-string mappings). -/
inductive StrValue where
  | s (v : String)
  | m (fields : List (String × String))
deriving DecidableEq

/-- Python's `' › '.join(values)`. -/
def joinStrFields (vals : List String) : String := String.intercalate " › " vals

/-- Flattening of one display-mapping value with `enclosure_fmt=None`:
a nested mapping becomes its values joined by the separator. -/
def flattenValue : StrValue → String
  | .s v => v
  | .m fields => joinStrFields (fields.map Prod.snd)

/-- Modelled from the spec: `flatten_dict(d, enclosure_fmt=None)` of the
external template library (not under src/): each nested mapping is replaced
by its values joined with the `' › '` separator. -/
def flatten_dict (d : List (String × StrValue)) : List (String × String) :=
  d.map (fun kv => (kv.1, flattenValue kv.2))

/-- Modelled from the spec: the enumeration display-label lookup backing
Django's `get_FOO_display` (framework code, not under src/): the stored
small integer is displayed via the declared choice table, falling back to
the raw value when absent. -/
def lookupChoice (choices : List (Int × String)) (v : Int) : String :=
  match choices.lookup v with
  | some label => label
  | none => toString v

/-- Modelled from the spec: the `Str` value class of the external template
library: a url string carrying a display `text` attribute — the canonical
reference is a URL plus a display label. -/
structure Str where
  url : String
  text : String
deriving DecidableEq

/-- Modelled from the spec: URL reversing for the detail views
(`club_detail`, `equipment_detail`, `member_detail` are routed outside
src/); the canonical URL is built from the primary key. -/
def reverse_detail (route : String) (pk : Option Nat) : String :=
  "/" ++ route ++ "/" ++ (match pk with | some k => toString k | none => "None") ++ "/"

/-- models.py lines 9-12: the Profile entity (in-memory instance). -/
structure Profile where
  first_name : String
  last_name : String
  birth_date : Date
deriving DecidableEq

/-- models.py lines 20-25: `Profile.get_str_fields`. -/
def Profile.get_str_fields (p : Profile) : List (String × String) :=
  [("first_name", p.first_name),
   ("last_name", p.last_name),
   ("birth_date", format_local_date p.birth_date)]

/-- models.py lines 27-28: `Profile.__str__`. -/
def Profile.str (p : Profile) : String :=
  " ".intercalate [p.first_name, p.last_name]

/-- models.py lines 31-33: the Manufacturer entity (in-memory instance). -/
structure Manufacturer where
  company_name : String
  direct_shipping : Bool
deriving DecidableEq

/-- models.py lines 40-45: `Manufacturer.get_str_fields`. -/
def Manufacturer.get_str_fields (mf : Manufacturer) : List (String × String) :=
  [("company_name", mf.company_name),
   ("direct_shipping", if mf.direct_shipping then "Yes (direct)" else "No (remote)")]

/-- models.py lines 47-48: `Manufacturer.__str__`. -/
def Manufacturer.str (mf : Manufacturer) : String :=
  joinStrFields (mf.get_str_fields.map Prod.snd)

def Club.CATEGORY_RECREATIONAL : Int := 0
def Club.CATEGORY_PROFESSIONAL : Int := 1

/-- models.py lines 54-57: `Club.CATEGORIES`. -/
def Club.CATEGORIES : List (Int × String) :=
  [(Club.CATEGORY_RECREATIONAL, "Recreational"),
   (Club.CATEGORY_PROFESSIONAL, "Professional")]

/-- models.py lines 51-63: the Club entity (in-memory instance; `pk` and the
two date fields are unset until assigned). -/
structure Club where
  pk : Option Nat
  title : String
  category : Int
  foundation_date : Option Date
  last_update : Option Date
deriving DecidableEq

def Club.get_category_display (c : Club) : String :=
  lookupChoice Club.CATEGORIES c.category

/-- models.py lines 70-75: `Club.save` — the timestamp stamping performed
before `super().save()`; the inherited save persists the row (modelled by
the DB layer below) and does not touch these fields. -/
def Club.save (now : Date) (c : Club) : Club :=
  if c.pk = none then
    let c := if c.foundation_date = none then { c with foundation_date := some now } else c
    { c with last_update := some now }
  else c

/-- models.py lines 77-80: `Club.get_absolute_url`. -/
def Club.get_absolute_url (c : Club) : Str :=
  { url := reverse_detail "club-detail" c.pk, text := c.title }

/-- models.py lines 82-88: `Club.get_str_fields`. -/
def Club.get_str_fields (c : Club) : List (String × String) :=
  [("title", c.title),
   ("category", c.get_category_display),
   ("foundation_date", format_local_date_o c.foundation_date),
   ("last_update", format_local_date_o c.last_update)]

/-- models.py lines 90-91: `Club.__str__`. -/
def Club.str (c : Club) : String :=
  joinStrFields (c.get_str_fields.map Prod.snd)

def Equipment.CATEGORY_RACKET : Int := 0
def Equipment.CATEGORY_BALL : Int := 1
def Equipment.CATEGORY_SHUTTLECOCK : Int := 2
def Equipment.CATEGORY_OTHER : Int := 3

/-- models.py lines 99-104: `Equipment.CATEGORIES`. -/
def Equipment.CATEGORIES : List (Int × String) :=
  [(Equipment.CATEGORY_RACKET, "Racket"),
   (Equipment.CATEGORY_BALL, "Ball"),
   (Equipment.CATEGORY_SHUTTLECOCK, "Shuttlecock"),
   (Equipment.CATEGORY_OTHER, "Other type")]

/-- models.py lines 94-112: the Equipment entity (in-memory instance;
related objects held directly, `manufacturer` optional). -/
structure Equipment where
  pk : Option Nat
  club : Club
  manufacturer : Option Manufacturer
  inventory_name : String
  category : Int
deriving DecidableEq

def Equipment.get_category_display (e : Equipment) : String :=
  lookupChoice Equipment.CATEGORIES e.category

/-- models.py lines 118-121: `Equipment.get_absolute_url`. -/
def Equipment.get_absolute_url (e : Equipment) : Str :=
  { url := reverse_detail "equipment-detail" e.pk, text := e.inventory_name }

/-- models.py lines 123-131: `Equipment.get_str_fields` — the
`manufacturer` entry is inserted only when the manufacturer is set. -/
def Equipment.get_str_fields (e : Equipment) : List (String × StrValue) :=
  [("club", StrValue.m e.club.get_str_fields)]
  ++ (match e.manufacturer with
      | some mf => [("manufacturer", StrValue.m mf.get_str_fields)]
      | none => [])
  ++ [("inventory_name", StrValue.s e.inventory_name),
      ("category", StrValue.s e.get_category_display)]

def Member.SPORT_BADMINTON : Int := 0
def Member.SPORT_TENNIS : Int := 1
def Member.SPORT_TABLE_TENNIS : Int := 2
def Member.SPORT_SQUASH : Int := 3
def Member.SPORT_ANOTHER : Int := 4

/-- models.py lines 144-148: `Member.BASIC_SPORTS`. -/
def Member.BASIC_SPORTS : List (Int × String) :=
  [(Member.SPORT_BADMINTON, "Badminton"),
   (Member.SPORT_TENNIS, "Tennis"),
   (Member.SPORT_TABLE_TENNIS, "Table tennis")]

/-- models.py lines 149-152: `Member.SPORTS`. -/
def Member.SPORTS : List (Int × String) :=
  Member.BASIC_SPORTS ++
  [(Member.SPORT_SQUASH, "Squash"),
   (Member.SPORT_ANOTHER, "Another sport")]

def Member.ROLE_OWNER : Int := 0
def Member.ROLE_FOUNDER : Int := 1
def Member.ROLE_MEMBER : Int := 2

/-- models.py lines 156-160: `Member.ROLES`. -/
def Member.ROLES : List (Int × String) :=
  [(Member.ROLE_OWNER, "Owner"),
   (Member.ROLE_FOUNDER, "Founder"),
   (Member.ROLE_MEMBER, "Member")]

/-- models.py lines 138-167: the Member entity (in-memory instance;
related objects held directly). -/
structure Member where
  pk : Option Nat
  profile : Profile
  club : Club
  last_visit : Date
  plays : Int
  role : Int
  note : String
  is_endorsed : Bool
deriving DecidableEq

def Member.get_plays_display (m : Member) : String :=
  lookupChoice Member.SPORTS m.plays

def Member.get_role_display (m : Member) : String :=
  lookupChoice Member.ROLES m.role

/-- models.py lines 180-189: `Member.get_str_fields`. -/
def Member.get_str_fields (m : Member) : List (String × StrValue) :=
  [("profile", StrValue.m m.profile.get_str_fields),
   ("club", StrValue.m m.club.get_str_fields),
   ("last_visit", StrValue.s (format_local_date m.last_visit)),
   ("plays", StrValue.s m.get_plays_display),
   ("role", StrValue.s m.get_role_display),
   ("is_endorsed", StrValue.s (if m.is_endorsed then "endorsed" else "unofficial"))]

/-- Python `str_fields['profile']`: dict indexing on a flattened mapping
whose keys are statically present. -/
def lookupD (l : List (String × String)) (k : String) : String :=
  (l.lookup k).getD ""

/-- models.py lines 174-178: `Member.get_absolute_url` — the label joins
the `profile` and `club` entries of the flattened display mapping with
`' / '`. -/
def Member.get_absolute_url (m : Member) : Str :=
  let str_fields := flatten_dict m.get_str_fields
  { url := reverse_detail "member-detail" m.pk,
    text := lookupD str_fields "profile" ++ " / " ++ lookupD str_fields "club" }

/-- A persisted Profile row (`pk` assigned by the storage backend). -/
structure ProfileRow where
  pk : Nat
  first_name : String
  last_name : String
  birth_date : Date
deriving DecidableEq

/-- A persisted Manufacturer row. -/
structure ManufacturerRow where
  pk : Nat
  company_name : String
  direct_shipping : Bool
deriving DecidableEq

/-- A persisted Club row (both timestamps set by `Club.save` on insert). -/
structure ClubRow where
  pk : Nat
  title : String
  category : Int
  foundation_date : Date
  last_update : Date
deriving DecidableEq

/-- A persisted Equipment row: `club` is a required foreign key (models.py
line 105), `manufacturer` an optional one (lines 106-108), both declared
`on_delete=CASCADE`. -/
structure EquipmentRow where
  pk : Nat
  club : Nat
  manufacturer : Option Nat
  inventory_name : String
  category : Int
deriving DecidableEq

/-- A persisted Member row: `profile` and `club` are foreign keys declared
`on_delete=CASCADE` (models.py lines 161-162). -/
structure MemberRow where
  pk : Nat
  profile : Nat
  club : Nat
  last_visit : Date
  plays : Int
  role : Int
  note : String
  is_endorsed : Bool
deriving DecidableEq

/-- The five tables of the persistence boundary. -/
structure DB where
  profiles : List ProfileRow
  manufacturers : List ManufacturerRow
  clubs : List ClubRow
  equipments : List EquipmentRow
  members : List MemberRow
deriving DecidableEq

/-- Modelled from the spec: the storage backend's cascade-on-delete for a
Club, per the `on_delete=CASCADE` declarations of `Equipment.club`
(models.py line 105) and `Member.club` (line 162): the Club row and every
Equipment and Member row referencing it are removed. -/
def DB.delete_club (k : Nat) (db : DB) : DB :=
  { db with
    clubs := db.clubs.filter (fun c => c.pk ≠ k),
    equipments := db.equipments.filter (fun e => e.club ≠ k),
    members := db.members.filter (fun m => m.club ≠ k) }

/-- Modelled from the spec: cascade-on-delete for a Manufacturer, per the
`on_delete=CASCADE` declaration of `Equipment.manufacturer` (models.py
lines 106-108). -/
def DB.delete_manufacturer (k : Nat) (db : DB) : DB :=
  { db with
    manufacturers := db.manufacturers.filter (fun mf => mf.pk ≠ k),
    equipments := db.equipments.filter (fun e => e.manufacturer ≠ some k) }

/-- Modelled from the spec: cascade-on-delete for a Profile, per the
`on_delete=CASCADE` declaration of `Member.profile` (models.py line 161). -/
def DB.delete_profile (k : Nat) (db : DB) : DB :=
  { db with
    profiles := db.profiles.filter (fun p => p.pk ≠ k),
    members := db.members.filter (fun m => m.profile ≠ k) }

/-- The spec's error taxonomy: conflict errors (uniqueness violated at the
persistence boundary) are a distinct class from validation errors. -/
inductive DBError where
  | conflict
  | validation
deriving DecidableEq

/-- Modelled from the spec: insertion of a Club at the persistence
boundary, enforcing `unique=True` on `title` (models.py line 58): a
duplicate title is reported as a conflict error and the tables are left
unchanged. -/
def DB.insert_club (c : ClubRow) (db : DB) : DB × Option DBError :=
  if db.clubs.any (fun r => r.title = c.title) then (db, some DBError.conflict)
  else ({ db with clubs := db.clubs ++ [c] }, none)

/-- Modelled from the spec: insertion of a Member, enforcing
`unique_together = ('profile', 'club')` (models.py line 170): a duplicate
(profile, club) pair is reported as a conflict error and the tables are
left unchanged. -/
def DB.insert_member (m : MemberRow) (db : DB) : DB × Option DBError :=
  if db.members.any (fun r => r.profile = m.profile ∧ r.club = m.club) then
    (db, some DBError.conflict)
  else ({ db with members := db.members ++ [m] }, none)

/-- Modelled from the spec: insertion of an Equipment (no uniqueness
constraint is declared on Equipment). -/
def DB.insert_equipment (e : EquipmentRow) (db : DB) : DB × Option DBError :=
  ({ db with equipments := db.equipments ++ [e] }, none)

/-- Membership of a value in a declared choice table. -/
def isValidChoice (choices : List (Int × String)) (v : Int) : Bool :=
  choices.any (fun kv => kv.1 = v)

/-- Validation of `Club.category` against `Club.CATEGORIES`
(models.py lines 59-61). -/
def ClubRow.validate (c : ClubRow) : Bool :=
  isValidChoice Club.CATEGORIES c.category

/-- Validation of `Equipment.category` against `Equipment.CATEGORIES`
(models.py lines 110-112). -/
def EquipmentRow.validate (e : EquipmentRow) : Bool :=
  isValidChoice Equipment.CATEGORIES e.category

/-- Validation of `Member.plays` against `Member.SPORTS` and `Member.role`
against `Member.ROLES` (models.py lines 164-165). -/
def MemberRow.validate (m : MemberRow) : Bool :=
  isValidChoice Member.SPORTS m.plays && isValidChoice Member.ROLES m.role

/-- Modelled from the spec: entity construction rejects a value outside the
declared enumeration as a validation error before persistence; only a
valid Club reaches the insert. -/
def DB.create_club (c : ClubRow) (db : DB) : DB × Option DBError :=
  if c.validate then db.insert_club c else (db, some DBError.validation)

/-- Modelled from the spec: validated construction of an Equipment. -/
def DB.create_equipment (e : EquipmentRow) (db : DB) : DB × Option DBError :=
  if e.validate then db.insert_equipment e else (db, some DBError.validation)

/-- Modelled from the spec: validated construction of a Member. -/
def DB.create_member (m : MemberRow) (db : DB) : DB × Option DBError :=
  if m.validate then db.insert_member m else (db, some DBError.validation)

/-- Referential integrity of the club references: every Equipment row and
every Member row points at an existing Club row. -/
def DB.clubRefsOk (db : DB) : Prop :=
  (∀ e ∈ db.equipments, ∃ c ∈ db.clubs, c.pk = e.club) ∧
  (∀ m ∈ db.members, ∃ c ∈ db.clubs, c.pk = m.club)

/-- All Club titles are pairwise distinct. -/
def DB.clubTitlesDistinct (db : DB) : Prop :=
  db.clubs.Pairwise (fun a b => a.title ≠ b.title)

/-- All Member (profile, club) pairs are pairwise distinct. -/
def DB.memberPairsDistinct (db : DB) : Prop :=
  db.members.Pairwise (fun a b => (a.profile, a.club) ≠ (b.profile, b.club))

/-- C1: a Club saved for the first time (pk unset) gets foundation_date
stamped with the current timestamp when unset and last_update stamped with
the current timestamp; a save of an already-persisted Club (pk set)
modifies neither field, over any number of subsequent saves. -/
theorem club_save_stamps_on_insert_only :
    (∀ (now : Date) (c : Club), c.pk = none → c.foundation_date = none →
      (Club.save now c).foundation_date = some now ∧
      (Club.save now c).last_update = some now) ∧
    (∀ (now : Date) (c : Club), c.pk = none →
      (Club.save now c).last_update = some now) ∧
    (∀ (now : Date) (c : Club) (k : Nat), c.pk = some k →
      Club.save now c = c) ∧
    (∀ (times : List Date) (c : Club) (k : Nat), c.pk = some k →
      times.foldl (fun acc t => Club.save t acc) c = c) := by
  have hpers : ∀ (now : Date) (c : Club) (k : Nat), c.pk = some k → Club.save now c = c := by
    intro now c k h
    simp [Club.save, h]
  refine ⟨?_, ?_, hpers, ?_⟩
  · intro now c h1 h2
    simp [Club.save, h1, h2]
  · intro now c h1
    by_cases h2 : c.foundation_date = none <;> simp [Club.save, h1, h2]
  · intro times
    induction times with
    | nil => intro c k h; rfl
    | cons t ts ih =>
      intro c k h
      rw [List.foldl_cons, hpers t c k h]
      exact ih c k h

/-- Witness for C1 at concrete clubs: a fresh club is stamped, a persisted
club is untouched by two further saves. -/
theorem club_save_stamps_on_insert_only_witness :
    ((Club.save 7 ⟨none, "A", 0, none, none⟩).foundation_date = some 7 ∧
     (Club.save 7 ⟨none, "A", 0, none, none⟩).last_update = some 7) ∧
    Club.save 9 ⟨some 1, "A", 0, some 2, some 3⟩ = ⟨some 1, "A", 0, some 2, some 3⟩ ∧
    [9, 11].foldl (fun acc t => Club.save t acc) ⟨some 1, "A", 0, some 2, some 3⟩
      = ⟨some 1, "A", 0, some 2, some 3⟩ :=
  ⟨club_save_stamps_on_insert_only.1 7 ⟨none, "A", 0, none, none⟩ rfl rfl,
   club_save_stamps_on_insert_only.2.2.1 9 ⟨some 1, "A", 0, some 2, some 3⟩ 1 rfl,
   club_save_stamps_on_insert_only.2.2.2 [9, 11] ⟨some 1, "A", 0, some 2, some 3⟩ 1 rfl⟩

/-- C2: deleting a Club removes the Club row and every Equipment and Member
row referencing it, preserving referential integrity of the club
references; deleting a Manufacturer removes every Equipment row referencing
it; deleting a Profile removes every Member row referencing it. -/
theorem cascade_deletes_remove_referencing_rows :
    ∀ (db : DB) (k : Nat),
      (∀ c ∈ (DB.delete_club k db).clubs, c.pk ≠ k) ∧
      (∀ e ∈ (DB.delete_club k db).equipments, e.club ≠ k) ∧
      (∀ m ∈ (DB.delete_club k db).members, m.club ≠ k) ∧
      (db.clubRefsOk → (DB.delete_club k db).clubRefsOk) ∧
      (∀ e ∈ (DB.delete_manufacturer k db).equipments, e.manufacturer ≠ some k) ∧
      (∀ m ∈ (DB.delete_profile k db).members, m.profile ≠ k) := by
  intro db k
  refine ⟨?_, ?_, ?_, ?_, ?_, ?_⟩
  · intro c hc
    simp only [DB.delete_club, List.mem_filter, decide_eq_true_eq] at hc
    exact hc.2
  · intro e he
    simp only [DB.delete_club, List.mem_filter, decide_eq_true_eq] at he
    exact he.2
  · intro m hm
    simp only [DB.delete_club, List.mem_filter, decide_eq_true_eq] at hm
    exact hm.2
  · rintro ⟨he, hm⟩
    simp only [DB.clubRefsOk, DB.delete_club] at *
    constructor
    · intro e hee
      simp only [List.mem_filter, decide_eq_true_eq] at hee
      obtain ⟨c, hcmem, hcpk⟩ := he e hee.1
      refine ⟨c, ?_, hcpk⟩
      simp only [List.mem_filter, decide_eq_true_eq]
      exact ⟨hcmem, by rw [hcpk]; exact hee.2⟩
    · intro mr hmm
      simp only [List.mem_filter, decide_eq_true_eq] at hmm
      obtain ⟨c, hcmem, hcpk⟩ := hm mr hmm.1
      refine ⟨c, ?_, hcpk⟩
      simp only [List.mem_filter, decide_eq_true_eq]
      exact ⟨hcmem, by rw [hcpk]; exact hmm.2⟩
  · intro e he
    simp only [DB.delete_manufacturer, List.mem_filter, decide_eq_true_eq] at he
    exact he.2
  · intro m hm
    simp only [DB.delete_profile, List.mem_filter, decide_eq_true_eq] at hm
    exact hm.2

/-- Witness for C2 at a concrete database holding one club, one referencing
equipment, one surviving equipment of another club, and one member. -/
theorem cascade_deletes_remove_referencing_rows_witness :
    (∀ e ∈ (DB.delete_club 1
        ⟨[⟨1, "P", "Q", 0⟩], [⟨1, "M", true⟩],
         [⟨1, "A", 0, 0, 0⟩, ⟨2, "B", 0, 0, 0⟩],
         [⟨1, 1, some 1, "x", 0⟩, ⟨2, 2, none, "y", 0⟩],
         [⟨1, 1, 1, 0, 0, 0, "", false⟩]⟩).equipments, e.club ≠ 1) ∧
    (DB.delete_club 1
        ⟨[⟨1, "P", "Q", 0⟩], [⟨1, "M", true⟩],
         [⟨1, "A", 0, 0, 0⟩, ⟨2, "B", 0, 0, 0⟩],
         [⟨1, 1, some 1, "x", 0⟩, ⟨2, 2, none, "y", 0⟩],
         [⟨1, 1, 1, 0, 0, 0, "", false⟩]⟩).clubRefsOk :=
  ⟨(cascade_deletes_remove_referencing_rows
      ⟨[⟨1, "P", "Q", 0⟩], [⟨1, "M", true⟩],
       [⟨1, "A", 0, 0, 0⟩, ⟨2, "B", 0, 0, 0⟩],
       [⟨1, 1, some 1, "x", 0⟩, ⟨2, 2, none, "y", 0⟩],
       [⟨1, 1, 1, 0, 0, 0, "", false⟩]⟩ 1).2.1,
   (cascade_deletes_remove_referencing_rows
      ⟨[⟨1, "P", "Q", 0⟩], [⟨1, "M", true⟩],
       [⟨1, "A", 0, 0, 0⟩, ⟨2, "B", 0, 0, 0⟩],
       [⟨1, 1, some 1, "x", 0⟩, ⟨2, 2, none, "y", 0⟩],
       [⟨1, 1, 1, 0, 0, 0, "", false⟩]⟩ 1).2.2.2.1
     (by simp only [DB.clubRefsOk]; decide)⟩

/-- C3: the Club-title uniqueness invariant and the Member (profile, club)
uniqueness invariant are preserved by insertion, and inserting a duplicate
fails with a conflict error leaving the tables unchanged. -/
theorem unique_constraints_reject_duplicates :
    ∀ (db : DB),
      (∀ c : ClubRow, db.clubTitlesDistinct → (db.insert_club c).1.clubTitlesDistinct) ∧
      (∀ c : ClubRow, (∃ r ∈ db.clubs, r.title = c.title) →
        db.insert_club c = (db, some DBError.conflict)) ∧
      (∀ m : MemberRow, db.memberPairsDistinct → (db.insert_member m).1.memberPairsDistinct) ∧
      (∀ m : MemberRow, (∃ r ∈ db.members, r.profile = m.profile ∧ r.club = m.club) →
        db.insert_member m = (db, some DBError.conflict)) := by
  intro db
  refine ⟨?_, ?_, ?_, ?_⟩
  · intro c hdist
    unfold DB.insert_club
    by_cases hany : db.clubs.any (fun r => r.title = c.title) = true
    · rw [if_pos hany]
      exact hdist
    · rw [if_neg hany]
      show List.Pairwise (fun a b => a.title ≠ b.title) (db.clubs ++ [c])
      rw [List.pairwise_append]
      refine ⟨hdist, List.pairwise_singleton _ _, ?_⟩
      intro a ha b hb
      rw [List.mem_singleton] at hb
      subst hb
      rw [Bool.not_eq_true, List.any_eq_false] at hany
      have h2 := hany a ha
      simpa using h2
  · intro c hdup
    obtain ⟨r, hr, ht⟩ := hdup
    have hany : db.clubs.any (fun r => r.title = c.title) = true :=
      List.any_eq_true.mpr ⟨r, hr, by simp [ht]⟩
    unfold DB.insert_club
    rw [hany]
    rfl
  · intro m hdist
    unfold DB.insert_member
    by_cases hany : db.members.any (fun r => r.profile = m.profile ∧ r.club = m.club) = true
    · rw [if_pos hany]
      exact hdist
    · rw [if_neg hany]
      show List.Pairwise (fun a b => (a.profile, a.club) ≠ (b.profile, b.club))
        (db.members ++ [m])
      rw [List.pairwise_append]
      refine ⟨hdist, List.pairwise_singleton _ _, ?_⟩
      intro a ha b hb
      rw [List.mem_singleton] at hb
      subst hb
      rw [Bool.not_eq_true, List.any_eq_false] at hany
      have h2 := hany a ha
      simpa [Prod.mk.injEq] using h2
  · intro m hdup
    obtain ⟨r, hr, ht⟩ := hdup
    have hany : db.members.any (fun r => r.profile = m.profile ∧ r.club = m.club) = true :=
      List.any_eq_true.mpr ⟨r, hr, by simp [ht.1, ht.2]⟩
    unfold DB.insert_member
    rw [hany]
    rfl

/-- Witness for C3: inserting a club with the title of the one existing
club, and a member with the (profile, club) pair of the one existing
member, both fail with a conflict leaving the database unchanged. -/
theorem unique_constraints_reject_duplicates_witness :
    DB.insert_club ⟨2, "A", 0, 0, 0⟩
        ⟨[], [], [⟨1, "A", 0, 0, 0⟩], [], [⟨1, 5, 1, 0, 0, 0, "", false⟩]⟩
      = (⟨[], [], [⟨1, "A", 0, 0, 0⟩], [], [⟨1, 5, 1, 0, 0, 0, "", false⟩]⟩,
         some DBError.conflict) ∧
    DB.insert_member ⟨2, 5, 1, 0, 0, 0, "", false⟩
        ⟨[], [], [⟨1, "A", 0, 0, 0⟩], [], [⟨1, 5, 1, 0, 0, 0, "", false⟩]⟩
      = (⟨[], [], [⟨1, "A", 0, 0, 0⟩], [], [⟨1, 5, 1, 0, 0, 0, "", false⟩]⟩,
         some DBError.conflict) :=
  ⟨(unique_constraints_reject_duplicates
      ⟨[], [], [⟨1, "A", 0, 0, 0⟩], [], [⟨1, 5, 1, 0, 0, 0, "", false⟩]⟩).2.1
      ⟨2, "A", 0, 0, 0⟩ ⟨⟨1, "A", 0, 0, 0⟩, by decide, rfl⟩,
   (unique_constraints_reject_duplicates
      ⟨[], [], [⟨1, "A", 0, 0, 0⟩], [], [⟨1, 5, 1, 0, 0, 0, "", false⟩]⟩).2.2.2
      ⟨2, 5, 1, 0, 0, 0, "", false⟩ ⟨⟨1, 5, 1, 0, 0, 0, "", false⟩, by decide, rfl, rfl⟩⟩

/-- C4: the display label of a Member's canonical reference is the
flattened `profile` entry of the Member's display mapping, followed by
`" / "`, followed by the flattened `club` entry; the club part coincides
with the Club's own summary string. -/
theorem member_canonical_label_joins_profile_and_club :
    ∀ m : Member,
      (flatten_dict m.get_str_fields).lookup "profile"
          = some (joinStrFields (m.profile.get_str_fields.map Prod.snd)) ∧
      (flatten_dict m.get_str_fields).lookup "club"
          = some (joinStrFields (m.club.get_str_fields.map Prod.snd)) ∧
      m.get_absolute_url.text
          = joinStrFields (m.profile.get_str_fields.map Prod.snd) ++ " / " ++
            joinStrFields (m.club.get_str_fields.map Prod.snd) ∧
      joinStrFields (m.club.get_str_fields.map Prod.snd) = Club.str m.club := by
  intro m
  exact ⟨rfl, rfl, rfl, rfl⟩

/-- C5: the Equipment display mapping omits the `manufacturer` key when the
manufacturer is unset, and binds it to the manufacturer's nested mapping
between `club` and `inventory_name` when set. -/
theorem equipment_manufacturer_key_only_when_set :
    ∀ e : Equipment,
      (e.manufacturer = none →
        e.get_str_fields.map Prod.fst = ["club", "inventory_name", "category"] ∧
        e.get_str_fields.lookup "manufacturer" = none) ∧
      (∀ mf : Manufacturer, e.manufacturer = some mf →
        e.get_str_fields.map Prod.fst
            = ["club", "manufacturer", "inventory_name", "category"] ∧
        e.get_str_fields.lookup "manufacturer" = some (StrValue.m mf.get_str_fields)) := by
  intro e
  obtain ⟨pk, club, mfo, inv, cat⟩ := e
  constructor
  · intro h
    subst h
    exact ⟨rfl, rfl⟩
  · intro mf h
    subst h
    exact ⟨rfl, rfl⟩

/-- Witness for C5: a concrete Equipment without and with a manufacturer. -/
theorem equipment_manufacturer_key_only_when_set_witness :
    (Equipment.get_str_fields ⟨some 1, ⟨some 1, "C", 0, some 0, some 0⟩, none, "Racket A", 0⟩
        |>.map Prod.fst) = ["club", "inventory_name", "category"] ∧
    (Equipment.get_str_fields
        ⟨some 1, ⟨some 1, "C", 0, some 0, some 0⟩, some ⟨"M", true⟩, "Racket A", 0⟩
        |>.lookup "manufacturer")
      = some (StrValue.m (Manufacturer.get_str_fields ⟨"M", true⟩)) :=
  ⟨((equipment_manufacturer_key_only_when_set
      ⟨some 1, ⟨some 1, "C", 0, some 0, some 0⟩, none, "Racket A", 0⟩).1 rfl).1,
   ((equipment_manufacturer_key_only_when_set
      ⟨some 1, ⟨some 1, "C", 0, some 0, some 0⟩, some ⟨"M", true⟩, "Racket A", 0⟩).2
      ⟨"M", true⟩ rfl).2⟩

/-- C6: the Equipment display mapping binds `club` to the related Club's
full display mapping, the Member display mapping binds `profile` and
`club` to the related Profile's and Club's full display mappings, and the
nested mappings keep the declared field order. -/
theorem composite_mappings_nest_full_related_mappings :
    ∀ (e : Equipment) (m : Member),
      e.get_str_fields.lookup "club" = some (StrValue.m e.club.get_str_fields) ∧
      m.get_str_fields.lookup "profile" = some (StrValue.m m.profile.get_str_fields) ∧
      m.get_str_fields.lookup "club" = some (StrValue.m m.club.get_str_fields) ∧
      m.profile.get_str_fields.map Prod.fst = ["first_name", "last_name", "birth_date"] ∧
      m.club.get_str_fields.map Prod.fst
        = ["title", "category", "foundation_date", "last_update"] := by
  intro e m
  obtain ⟨pk, club, mfo, inv, cat⟩ := e
  cases mfo <;> exact ⟨rfl, rfl, rfl, rfl, rfl⟩

/-- A value outside a declared choice table fails the choice check. -/
theorem isValidChoice_eq_false_of_not_mem {choices : List (Int × String)} {v : Int}
    (h : v ∉ choices.map Prod.fst) : isValidChoice choices v = false := by
  rw [isValidChoice, List.any_eq_false]
  intro kv hkv
  simp only [decide_eq_true_eq]
  intro hEq
  exact h (List.mem_map.mpr ⟨kv, hkv, hEq⟩)

/-- C7: constructing a Club, Equipment or Member with an enumeration-valued
field outside its declared choice set is rejected as a validation error
before persistence, leaving the tables unchanged. -/
theorem choice_validation_rejects_before_persistence :
    ∀ (db : DB),
      (∀ c : ClubRow, c.category ∉ Club.CATEGORIES.map Prod.fst →
        db.create_club c = (db, some DBError.validation)) ∧
      (∀ e : EquipmentRow, e.category ∉ Equipment.CATEGORIES.map Prod.fst →
        db.create_equipment e = (db, some DBError.validation)) ∧
      (∀ m : MemberRow, m.plays ∉ Member.SPORTS.map Prod.fst →
        db.create_member m = (db, some DBError.validation)) ∧
      (∀ m : MemberRow, m.role ∉ Member.ROLES.map Prod.fst →
        db.create_member m = (db, some DBError.validation)) := by
  intro db
  refine ⟨?_, ?_, ?_, ?_⟩
  · intro c h
    have hv : c.validate = false := isValidChoice_eq_false_of_not_mem h
    unfold DB.create_club
    rw [hv]
    rfl
  · intro e h
    have hv : e.validate = false := isValidChoice_eq_false_of_not_mem h
    unfold DB.create_equipment
    rw [hv]
    rfl
  · intro m h
    have hv : m.validate = false := by
      rw [MemberRow.validate, isValidChoice_eq_false_of_not_mem h, Bool.false_and]
    unfold DB.create_member
    rw [hv]
    rfl
  · intro m h
    have hv : m.validate = false := by
      rw [MemberRow.validate, isValidChoice_eq_false_of_not_mem h, Bool.and_false]
    unfold DB.create_member
    rw [hv]
    rfl

/-- Witness for C7 on the empty database: category 5 for a Club, category 9
for an Equipment, sport 7 and role 3 for Members are all rejected. -/
theorem choice_validation_rejects_before_persistence_witness :
    DB.create_club ⟨1, "A", 5, 0, 0⟩ ⟨[], [], [], [], []⟩
      = (⟨[], [], [], [], []⟩, some DBError.validation) ∧
    DB.create_equipment ⟨1, 1, none, "x", 9⟩ ⟨[], [], [], [], []⟩
      = (⟨[], [], [], [], []⟩, some DBError.validation) ∧
    DB.create_member ⟨1, 1, 1, 0, 7, 2, "", false⟩ ⟨[], [], [], [], []⟩
      = (⟨[], [], [], [], []⟩, some DBError.validation) ∧
    DB.create_member ⟨1, 1, 1, 0, 0, 3, "", false⟩ ⟨[], [], [], [], []⟩
      = (⟨[], [], [], [], []⟩, some DBError.validation) :=
  ⟨(choice_validation_rejects_before_persistence ⟨[], [], [], [], []⟩).1
      ⟨1, "A", 5, 0, 0⟩ (by decide),
   (choice_validation_rejects_before_persistence ⟨[], [], [], [], []⟩).2.1
      ⟨1, 1, none, "x", 9⟩ (by decide),
   (choice_validation_rejects_before_persistence ⟨[], [], [], [], []⟩).2.2.1
      ⟨1, 1, 1, 0, 7, 2, "", false⟩ (by decide),
   (choice_validation_rejects_before_persistence ⟨[], [], [], [], []⟩).2.2.2
      ⟨1, 1, 1, 0, 0, 3, "", false⟩ (by decide)⟩

/-- C8: the Manufacturer display mapping renders `direct_shipping` as
`"Yes (direct)"` when true and `"No (remote)"` when false, the Member
display mapping renders `is_endorsed` as `"endorsed"` when true and
`"unofficial"` when false, and in every case the bound value is one of the
two human labels, never a raw boolean. -/
theorem boolean_flags_render_as_paired_labels :
    ∀ (mf : Manufacturer) (m : Member),
      (mf.direct_shipping = true →
        mf.get_str_fields.lookup "direct_shipping" = some "Yes (direct)") ∧
      (mf.direct_shipping = false →
        mf.get_str_fields.lookup "direct_shipping" = some "No (remote)") ∧
      (mf.get_str_fields.lookup "direct_shipping" = some "Yes (direct)" ∨
       mf.get_str_fields.lookup "direct_shipping" = some "No (remote)") ∧
      (m.is_endorsed = true →
        m.get_str_fields.lookup "is_endorsed" = some (StrValue.s "endorsed")) ∧
      (m.is_endorsed = false →
        m.get_str_fields.lookup "is_endorsed" = some (StrValue.s "unofficial")) ∧
      (m.get_str_fields.lookup "is_endorsed" = some (StrValue.s "endorsed") ∨
       m.get_str_fields.lookup "is_endorsed" = some (StrValue.s "unofficial")) := by
  intro mf m
  obtain ⟨cn, ds⟩ := mf
  obtain ⟨pk, pr, cl, lv, pl, ro, no, en⟩ := m
  cases ds <;> cases en
  · exact ⟨fun h => Bool.noConfusion h, fun _ => rfl, Or.inr rfl,
      fun h => Bool.noConfusion h, fun _ => rfl, Or.inr rfl⟩
  · exact ⟨fun h => Bool.noConfusion h, fun _ => rfl, Or.inr rfl,
      fun _ => rfl, fun h => Bool.noConfusion h, Or.inl rfl⟩
  · exact ⟨fun _ => rfl, fun h => Bool.noConfusion h, Or.inl rfl,
      fun h => Bool.noConfusion h, fun _ => rfl, Or.inr rfl⟩
  · exact ⟨fun _ => rfl, fun h => Bool.noConfusion h, Or.inl rfl,
      fun _ => rfl, fun h => Bool.noConfusion h, Or.inl rfl⟩

/-- Witness for C8 at concrete entities with both flag polarities. -/
theorem boolean_flags_render_as_paired_labels_witness :
    (Manufacturer.get_str_fields ⟨"M", true⟩).lookup "direct_shipping"
        = some "Yes (direct)" ∧
    (Manufacturer.get_str_fields ⟨"M", false⟩).lookup "direct_shipping"
        = some "No (remote)" ∧
    (Member.get_str_fields
        ⟨some 1, ⟨"A", "B", 0⟩, ⟨some 1, "C", 0, some 0, some 0⟩, 0, 0, 2, "", true⟩).lookup
        "is_endorsed" = some (StrValue.s "endorsed") ∧
    (Member.get_str_fields
        ⟨some 1, ⟨"A", "B", 0⟩, ⟨some 1, "C", 0, some 0, some 0⟩, 0, 0, 2, "", false⟩).lookup
        "is_endorsed" = some (StrValue.s "unofficial") :=
  ⟨(boolean_flags_render_as_paired_labels ⟨"M", true⟩
      ⟨some 1, ⟨"A", "B", 0⟩, ⟨some 1, "C", 0, some 0, some 0⟩, 0, 0, 2, "", true⟩).1 rfl,
   (boolean_flags_render_as_paired_labels ⟨"M", false⟩
      ⟨some 1, ⟨"A", "B", 0⟩, ⟨some 1, "C", 0, some 0, some 0⟩, 0, 0, 2, "", true⟩).2.1 rfl,
   (boolean_flags_render_as_paired_labels ⟨"M", true⟩
      ⟨some 1, ⟨"A", "B", 0⟩, ⟨some 1, "C", 0, some 0, some 0⟩, 0, 0, 2, "", true⟩).2.2.2.1 rfl,
   (boolean_flags_render_as_paired_labels ⟨"M", true⟩
      ⟨some 1, ⟨"A", "B", 0⟩, ⟨some 1, "C", 0, some 0, some 0⟩, 0, 0, 2, "", false⟩).2.2.2.2.1
      rfl⟩

/-- C9: `Profile.__str__` is first and last name joined by a space, without
the birth date, while the profile part of a Member's canonical label
(the flattened `profile` entry of the Member's display mapping) includes
the formatted birth date; the two representations differ for every
profile. -/
theorem profile_summary_differs_from_flattened_label :
    ∀ m : Member,
      Profile.str m.profile = m.profile.first_name ++ " " ++ m.profile.last_name ∧
      (flatten_dict m.get_str_fields).lookup "profile"
        = some (m.profile.first_name ++ " › " ++ m.profile.last_name ++ " › "
                ++ format_local_date m.profile.birth_date) ∧
      (∀ s : String, (flatten_dict m.get_str_fields).lookup "profile" = some s →
        s ≠ Profile.str m.profile) := by
  intro m
  have hbig : (flatten_dict m.get_str_fields).lookup "profile"
      = some (m.profile.first_name ++ " › " ++ m.profile.last_name ++ " › "
              ++ format_local_date m.profile.birth_date) := rfl
  refine ⟨rfl, hbig, ?_⟩
  intro s hs heq
  rw [hbig] at hs
  have hsb := Option.some.inj hs
  rw [← hsb] at heq
  have hps : Profile.str m.profile
      = m.profile.first_name ++ " " ++ m.profile.last_name := rfl
  rw [hps] at heq
  have hl := congrArg String.length heq
  have h3 : (" › " : String).length = 3 := rfl
  have h1 : (" " : String).length = 1 := rfl
  simp only [String.length_append, h3, h1] at hl
  omega

/-- Witness for C9: for a concrete profile the flattened label differs from
the `__str__` summary. -/
theorem profile_summary_differs_from_flattened_label_witness :
    ("A" ++ " › " ++ "B" ++ " › " ++ format_local_date 0 : String)
      ≠ Profile.str ⟨"A", "B", 0⟩ :=
  (profile_summary_differs_from_flattened_label
      ⟨some 1, ⟨"A", "B", 0⟩, ⟨some 1, "C", 0, some 0, some 0⟩, 0, 0, 2, "", false⟩).2.2
    ("A" ++ " › " ++ "B" ++ " › " ++ format_local_date 0) rfl

/-- C10: the Member display mapping holds exactly the keys profile, club,
last_visit, plays, role, is_endorsed in that order; `note` never appears,
and the mapping does not depend on the note's content. -/
theorem member_display_mapping_excludes_note :
    ∀ m : Member,
      m.get_str_fields.map Prod.fst
        = ["profile", "club", "last_visit", "plays", "role", "is_endorsed"] ∧
      "note" ∉ m.get_str_fields.map Prod.fst ∧
      (∀ tx : String, Member.get_str_fields { m with note := tx } = m.get_str_fields) := by
  intro m
  refine ⟨rfl, ?_, fun tx => rfl⟩
  intro hmem
  rw [show m.get_str_fields.map Prod.fst
      = ["profile", "club", "last_visit", "plays", "role", "is_endorsed"] from rfl] at hmem
  simp at hmem

/-- Witness for C10 at a concrete member carrying a nonempty note. -/
theorem member_display_mapping_excludes_note_witness :
    "note" ∉ (Member.get_str_fields
      ⟨some 1, ⟨"A", "B", 0⟩, ⟨some 1, "C", 0, some 0, some 0⟩, 0, 0, 2, "secret",
       false⟩).map Prod.fst ∧
    Member.get_str_fields
        ⟨some 1, ⟨"A", "B", 0⟩, ⟨some 1, "C", 0, some 0, some 0⟩, 0, 0, 2, "secret", false⟩
      = Member.get_str_fields
        ⟨some 1, ⟨"A", "B", 0⟩, ⟨some 1, "C", 0, some 0, some 0⟩, 0, 0, 2, "", false⟩ :=
  ⟨(member_display_mapping_excludes_note
      ⟨some 1, ⟨"A", "B", 0⟩, ⟨some 1, "C", 0, some 0, some 0⟩, 0, 0, 2, "secret",
       false⟩).2.1,
   (member_display_mapping_excludes_note
      ⟨some 1, ⟨"A", "B", 0⟩, ⟨some 1, "C", 0, some 0, some 0⟩, 0, 0, 2, "", false⟩).2.2
     "secret"⟩
